import Mathlib

/-!
# Heart Rate profile client (`profiles/heartrate/heartrate.c`)

A shallow embedding of the heart rate profile discovery callbacks and of its
adapter/device registry, together with theorems about them.

Conventions of the embedding.

* C pointers to externally owned objects (`struct btd_adapter *`,
  `struct btd_device *`, `GAttrib *`) are natural-number identities; a pointer
  that may be `NULL` is an `Option`.
* `uint16_t` and `uint8_t` values are natural numbers; where the C code does
  arithmetic on them the truncation to the width of the destination is written
  out with `%`.
* Every function that calls into the GATT/ATT transport or into the device
  core returns, next to the new state, the list of the external calls it made,
  in the order it made them (`Call`).  Logging (`error`, `DBG`) and `g_free` are
  not represented.
-/

namespace Heartrate

/-! ## Data model -/

/-- The `struct att_range` of `att.h`: an inclusive range of attribute handles.
The field `end_` is the C field `end`. -/
structure att_range where
  start : Nat
  end_ : Nat
  deriving DecidableEq, Repr

/-- The `struct gatt_char` of `gatt.h`, as far as `heartrate.c` reads it:
the UUID string, the declaration handle and the value handle. -/
structure gatt_char where
  uuid : String
  handle : Nat
  properties : Nat
  value_handle : Nat
  deriving DecidableEq, Repr

/-- The `struct heartrate`: the discovery session of one remote device.
`hradapter`, a pointer to the owning `struct heartrate_adapter`, is kept as
the adapter identity of that context. -/
structure heartrate where
  dev : Nat
  hradapter : Nat
  attrib : Option Nat
  attioid : Nat
  svc_range : att_range
  measurement_val_handle : Nat
  measurement_ccc_handle : Nat
  hrcp_val_handle : Nat
  has_location : Bool
  location : Nat
  deriving DecidableEq, Repr

/-- The `struct heartrate_adapter`: one local adapter and its sessions. -/
structure heartrate_adapter where
  adapter : Nat
  devices : List heartrate
  deriving DecidableEq, Repr

/-- The calls `heartrate.c` makes into the transport and the device core.
The completion callback and the user data passed along are fixed by the call
site and are not recorded. -/
inductive Call where
  | gatt_find_info (attrib : Option Nat) (start end_ : Nat)
  | gatt_read_char (attrib : Option Nat) (handle offset : Nat)
  | gatt_discover_char (attrib : Option Nat) (start end_ : Nat)
  | g_attrib_ref (attrib : Option Nat)
  | g_attrib_unref (attrib : Option Nat)
  | btd_device_ref (dev : Nat)
  | btd_device_unref (dev : Nat)
  | btd_device_add_attio_callback (dev : Nat)
  | btd_device_remove_attio_callback (dev : Nat) (id : Nat)
  deriving DecidableEq, Repr

/-- The number of values of a `uint16_t`. -/
def U16 : Nat := 65536

/-! ## Descriptor range of the measurement characteristic -/

/-- The function `discover_measurement_ccc`: the range between the value handle of `c` and
the next characteristic (or the end of the service) is scanned for
descriptors, unless it is empty.  `start` and `end` are `uint16_t`. -/
def discover_measurement_ccc (hr : heartrate) (c : gatt_char)
    (c_next : Option gatt_char) : heartrate × List Call :=
  let start := (c.value_handle + 1) % U16
  match c_next with
  | some n =>
    if start = n.handle then (hr, [])
    else
      let end_ := (n.handle + (U16 - 1)) % U16
      (hr, [Call.gatt_find_info hr.attrib start end_])
  | none =>
    if c.value_handle ≠ hr.svc_range.end_ then
      let end_ := hr.svc_range.end_
      (hr, [Call.gatt_find_info hr.attrib start end_])
    else (hr, [])

/-! ## Constants of the headers -/

/-- Modelled from the spec: the identity "heart-rate measurement"
(`HEART_RATE_MEASUREMENT_UUID`); the header that defines the string is not
among the sources, the Bluetooth assigned number 0x2A37 is used. -/
def HEART_RATE_MEASUREMENT_UUID : String := "00002a37-0000-1000-8000-00805f9b34fb"

/-- Modelled from the spec: the identity "body sensor location"
(`BODY_SENSOR_LOCATION_UUID`), assigned number 0x2A38; its header is not among
the sources. -/
def BODY_SENSOR_LOCATION_UUID : String := "00002a38-0000-1000-8000-00805f9b34fb"

/-- Modelled from the spec: the identity "control point"
(`HEART_RATE_CONTROL_POINT_UUID`), assigned number 0x2A39; its header is not
among the sources. -/
def HEART_RATE_CONTROL_POINT_UUID : String := "00002a39-0000-1000-8000-00805f9b34fb"

/-- Modelled from the spec: the identity "client characteristic
configuration" (`GATT_CLIENT_CHARAC_CFG_UUID` of `gatt.h`, not among the
sources), 0x2902. -/
def GATT_CLIENT_CHARAC_CFG_UUID : Nat := 0x2902

/-- Modelled from the spec: the "16-bit short-identity descriptor format"
(`ATT_FIND_INFO_RESP_FMT_16BIT` of `att.h`, not among the sources), the format
byte 0x01 of a Find Information response. -/
def ATT_FIND_INFO_RESP_FMT_16BIT : Nat := 0x01

/-! ## The ATT decoders -/

/-- The decoders of `att.c`/`att.h` that the callbacks use.  They are not among
the sources and are taken as parameters.

* `dec_read_resp pdu len vlen` gives the `ssize_t` the C function returns
  (negative on error) and the byte held by the one-byte buffer `value` after
  the call.
* `dec_find_info_resp pdu len` gives `none` for a `NULL` list, and otherwise
  the format byte and the entries `list->data[0 .. list->num - 1]`, each entry
  a byte string.
* `att_get_u16 p` reads a `uint16_t` at the start of the byte string `p`;
  `value + 2` in C is `value.drop 2` here. -/
structure AttLib where
  dec_read_resp : List Nat → Nat → Nat → Int × Nat
  dec_find_info_resp : List Nat → Nat → Option (Nat × List (List Nat))
  att_get_u16 : List Nat → Nat

/-! ## Completion callbacks -/

/-- The function `read_sensor_location_cb`: completion of the Body Sensor Location read.
`sizeof(value)` is 1. -/
def read_sensor_location_cb (lib : AttLib) (status : Nat) (pdu : List Nat)
    (len : Nat) (hr : heartrate) : heartrate × List Call :=
  if status ≠ 0 then (hr, [])
  else
    let r := lib.dec_read_resp pdu len 1
    let vlen := r.1
    let value := r.2
    if vlen < 0 then (hr, [])
    else if vlen ≠ 1 then (hr, [])
    else ({ hr with has_location := true, location := value }, [])

/-- The `for` loop of `discover_ccc_cb` over the entries of the decoded list:
the first entry whose UUID is the client characteristic configuration gives the
handle, and the loop stops there. -/
def discover_ccc_loop (lib : AttLib) (hr : heartrate) : List (List Nat) → heartrate
  | [] => hr
  | value :: rest =>
    let handle := lib.att_get_u16 value
    let uuid := lib.att_get_u16 (value.drop 2)
    if uuid = GATT_CLIENT_CHARAC_CFG_UUID then
      { hr with measurement_ccc_handle := handle }
    else discover_ccc_loop lib hr rest

/-- The function `discover_ccc_cb`: completion of the descriptor discovery of the
measurement characteristic. -/
def discover_ccc_cb (lib : AttLib) (status : Nat) (pdu : List Nat)
    (len : Nat) (hr : heartrate) : heartrate × List Call :=
  if status ≠ 0 then (hr, [])
  else
    match lib.dec_find_info_resp pdu len with
    | none => (hr, [])
    | some (format, list) =>
      if format ≠ ATT_FIND_INFO_RESP_FMT_16BIT then (hr, [])
      else (discover_ccc_loop lib hr list, [])

/-- The `for` loop of `discover_char_cb`; `chars->next ? chars->next->data :
NULL` is the head of the remaining list. -/
def discover_char_loop (hr : heartrate) : List gatt_char → heartrate × List Call
  | [] => (hr, [])
  | c :: next =>
    let r :=
      if c.uuid = HEART_RATE_MEASUREMENT_UUID then
        let c_next := next.head?
        discover_measurement_ccc
          { hr with measurement_val_handle := c.value_handle } c c_next
      else if c.uuid = BODY_SENSOR_LOCATION_UUID then
        (hr, [Call.gatt_read_char hr.attrib c.value_handle 0])
      else if c.uuid = HEART_RATE_CONTROL_POINT_UUID then
        ({ hr with hrcp_val_handle := c.value_handle }, [])
      else (hr, [])
    let r2 := discover_char_loop r.1 next
    (r2.1, r.2 ++ r2.2)

/-- The function `discover_char_cb`: completion of the characteristic discovery. -/
def discover_char_cb (chars : List gatt_char) (status : Nat) (hr : heartrate) :
    heartrate × List Call :=
  if status ≠ 0 then (hr, [])
  else discover_char_loop hr chars

/-- The function `attio_connected_cb`: the transport `attrib` is attached. -/
def attio_connected_cb (attrib : Option Nat) (hr : heartrate) :
    heartrate × List Call :=
  let hr1 := { hr with attrib := attrib }
  (hr1, [Call.g_attrib_ref attrib,
         Call.gatt_discover_char hr1.attrib hr1.svc_range.start hr1.svc_range.end_])

/-- The function `attio_disconnected_cb`: the transport is detached. -/
def attio_disconnected_cb (hr : heartrate) : heartrate × List Call :=
  ({ hr with attrib := none }, [Call.g_attrib_unref hr.attrib])

/-! ## GLib singly linked lists

A `GSList` of pointers is the list of the pointed-to values.  A pointer into
the list obtained by a search is the first element the search accepts. -/

/-- The function `g_slist_find_custom`: the first element for which `func` returns 0. -/
def g_slist_find_custom {α β : Type} (list : List α) (data : β)
    (func : α → β → Int) : Option α :=
  match list with
  | [] => none
  | x :: rest =>
    if func x data = 0 then some x else g_slist_find_custom rest data func

/-- The function `g_slist_remove`: removes the first element equal to `data`, if any. -/
def g_slist_remove {α : Type} [DecidableEq α] (list : List α) (data : α) : List α :=
  match list with
  | [] => []
  | x :: rest => if x = data then rest else x :: g_slist_remove rest data

/-- The function `g_slist_prepend`: the new element becomes the head. -/
def g_slist_prepend {α : Type} (list : List α) (data : α) : List α :=
  data :: list

/-! ## Registry -/

/-- The function `cmp_adapter`: 0 when the context belongs to `adapter`, else -1. -/
def cmp_adapter (hradapter : heartrate_adapter) (adapter : Nat) : Int :=
  if adapter = hradapter.adapter then 0 else -1

/-- The function `cmp_device`: 0 when the session belongs to `dev`, else -1. -/
def cmp_device (hr : heartrate) (dev : Nat) : Int :=
  if dev = hr.dev then 0 else -1

/-- The function `find_heartrate_adapter`, over the global list `heartrate_adapters`. -/
def find_heartrate_adapter (heartrate_adapters : List heartrate_adapter)
    (adapter : Nat) : Option heartrate_adapter :=
  g_slist_find_custom heartrate_adapters adapter cmp_adapter

/-- The assignment `hradapter->devices = devices` through the pointer that
`find_heartrate_adapter` returned for `adapter`: the first context of that
adapter in the list gets the new session list. -/
def set_devices (heartrate_adapters : List heartrate_adapter) (adapter : Nat)
    (devices : List heartrate) : List heartrate_adapter :=
  match heartrate_adapters with
  | [] => []
  | x :: rest =>
    if cmp_adapter x adapter = 0 then { x with devices := devices } :: rest
    else x :: set_devices rest adapter devices

/-- The function `destroy_heartrate`: the teardown calls for a session. -/
def destroy_heartrate (hr : heartrate) : List Call :=
  (if hr.attioid > 0 then
    [Call.btd_device_remove_attio_callback hr.dev hr.attioid] else []) ++
  (if hr.attrib ≠ none then [Call.g_attrib_unref hr.attrib] else []) ++
  [Call.btd_device_unref hr.dev]

/-- The function `destroy_heartrate_adapter`: only frees the context. -/
def destroy_heartrate_adapter (_hradapter : heartrate_adapter) : List Call := []

/-- The function `heartrate_adapter_register`: a zeroed context for `adapter` is
prepended to the global list; there is no search for an existing one. -/
def heartrate_adapter_register (heartrate_adapters : List heartrate_adapter)
    (adapter : Nat) : Int × List heartrate_adapter :=
  let hradapter : heartrate_adapter := { adapter := adapter, devices := [] }
  (0, g_slist_prepend heartrate_adapters hradapter)

/-- The function `heartrate_adapter_unregister`: the context found for
`adapter` is removed from the global list and freed. -/
def heartrate_adapter_unregister (heartrate_adapters : List heartrate_adapter)
    (adapter : Nat) : List heartrate_adapter × List Call :=
  match find_heartrate_adapter heartrate_adapters adapter with
  | none => (heartrate_adapters, [])
  | some hradapter =>
    (g_slist_remove heartrate_adapters hradapter, destroy_heartrate_adapter hradapter)

/-- The `struct gatt_primary` of `gatt.h`, as far as it is read. -/
structure gatt_primary where
  uuid : String
  range : att_range
  deriving DecidableEq, Repr

/-- The function `heartrate_device_register`.  `device_get_adapter` is the accessor of the
device core; `attioid` is the token that `btd_device_add_attio_callback`
returns, which the session stores. -/
def heartrate_device_register (device_get_adapter : Nat → Nat)
    (heartrate_adapters : List heartrate_adapter) (device : Nat)
    (prim : gatt_primary) (attioid : Nat) :
    Int × List heartrate_adapter × List Call :=
  let adapter := device_get_adapter device
  match find_heartrate_adapter heartrate_adapters adapter with
  | none => (-1, heartrate_adapters, [])
  | some hradapter =>
    let hr : heartrate :=
      { dev := device, hradapter := hradapter.adapter, attrib := none,
        attioid := attioid,
        svc_range := { start := prim.range.start, end_ := prim.range.end_ },
        measurement_val_handle := 0, measurement_ccc_handle := 0,
        hrcp_val_handle := 0, has_location := false, location := 0 }
    (0, set_devices heartrate_adapters adapter (g_slist_prepend hradapter.devices hr),
      [Call.btd_device_ref device, Call.btd_device_add_attio_callback device])

/-- The function `heartrate_device_unregister`: the session found for `device`
in the context of its adapter is removed from that context and destroyed. -/
def heartrate_device_unregister (device_get_adapter : Nat → Nat)
    (heartrate_adapters : List heartrate_adapter) (device : Nat) :
    List heartrate_adapter × List Call :=
  let adapter := device_get_adapter device
  match find_heartrate_adapter heartrate_adapters adapter with
  | none => (heartrate_adapters, [])
  | some hradapter =>
    match g_slist_find_custom hradapter.devices device cmp_device with
    | none => (heartrate_adapters, [])
    | some hr =>
      (set_devices heartrate_adapters adapter (g_slist_remove hradapter.devices hr),
        destroy_heartrate hr)

/-! ## The classification of a characteristic list, as the specification words it -/

/-- The identities the classifier distinguishes. -/
inductive Identity where
  | measurement
  | location
  | controlPoint
  | other
  deriving DecidableEq, Repr

/-- The identity of a discovered characteristic, by its UUID string. -/
def identity (c : gatt_char) : Identity :=
  if c.uuid = HEART_RATE_MEASUREMENT_UUID then Identity.measurement
  else if c.uuid = BODY_SENSOR_LOCATION_UUID then Identity.location
  else if c.uuid = HEART_RATE_CONTROL_POINT_UUID then Identity.controlPoint
  else Identity.other

/-- The successor of every list entry: the next entry, or none for the last. -/
def successors (chars : List gatt_char) : List (Option gatt_char) :=
  (chars.drop 1).map some ++ [none]

/-- What the specification asks for one entry `e.1` with successor `e.2`, on
the session and the requests issued so far: a measurement entry sets the
measurement handle and appends the scan of the resolver, if it gives one; a
location entry appends a read at offset 0; a control point entry sets the
control point handle; any other entry does nothing. -/
def classify_entry (st : heartrate × List Call) (e : gatt_char × Option gatt_char) :
    heartrate × List Call :=
  match identity e.1 with
  | Identity.measurement =>
    let hr := { st.1 with measurement_val_handle := e.1.value_handle }
    (hr, st.2 ++ (discover_measurement_ccc hr e.1 e.2).2)
  | Identity.location =>
    (st.1, st.2 ++ [Call.gatt_read_char st.1.attrib e.1.value_handle 0])
  | Identity.controlPoint =>
    ({ st.1 with hrcp_val_handle := e.1.value_handle }, st.2)
  | Identity.other => st

/-- The classifier of the specification: the entries, each paired with its
successor, are handled from the first to the last. -/
def classify (chars : List gatt_char) (hr : heartrate) : heartrate × List Call :=
  (chars.zip (successors chars)).foldl classify_entry (hr, [])

/-! ## Concrete inputs used in the scenarios -/

/-- A connected session (transport 1) over the service range `[10, 20]`. -/
def hr_10_20 : heartrate :=
  { dev := 7, hradapter := 1, attrib := some 1, attioid := 1,
    svc_range := { start := 10, end_ := 20 },
    measurement_val_handle := 0, measurement_ccc_handle := 0,
    hrcp_val_handle := 0, has_location := false, location := 0 }

/-- A concrete instance of the decoders, used to run the scenarios.  It follows
the ATT wire format: the opcode is the first byte (0x0b read response, 0x05
find information response), 16-bit fields are little-endian, a read response
that does not fit the buffer is refused with `-ENOBUFS`, and a find information
response carries entries of 4 bytes in format 1 and of 18 bytes otherwise. -/
def att_wire : AttLib where
  dec_read_resp := fun pdu len vlen =>
    match pdu with
    | 0x0b :: rest => if vlen < len - 1 then (-105, 0) else ((len : Int) - 1, rest.headD 0)
    | _ => (-22, 0)
  dec_find_info_resp := fun pdu _len =>
    match pdu with
    | 0x05 :: format :: rest =>
      some (format, rest.toChunks (if format = 1 then 4 else 18))
    | _ => none
  att_get_u16 := fun p => p.getD 0 0 + 256 * p.getD 1 0

/-- A `device_get_adapter` for the scenarios: device `d` is owned by adapter
`d / 10`. -/
def adapter_of (device : Nat) : Nat := device / 10

/-- The primary heart rate service over `[10, 20]`. -/
def prim_10_20 : gatt_primary :=
  { uuid := "0000180d-0000-1000-8000-00805f9b34fb", range := { start := 10, end_ := 20 } }

/-- A registry with contexts for the adapters 2 and 1, the latter holding one
session of device 11. -/
def registry_2_1 : List heartrate_adapter :=
  [{ adapter := 2, devices := [] },
   { adapter := 1, devices := [{ hr_10_20 with dev := 11 }] }]

/-- A registry whose only context, for adapter 1, holds two sessions of the
same device 17, the result of registering the device twice. -/
def registry_twice : List heartrate_adapter :=
  [{ adapter := 1,
     devices := [{ hr_10_20 with dev := 17, attioid := 2 }, { hr_10_20 with dev := 17 }] }]

/-- The characteristic list of the scenario: measurement declared at 10 with
value at 11, location at 15/16, control point at 18/19. -/
def scenario_chars : List gatt_char :=
  [{ uuid := HEART_RATE_MEASUREMENT_UUID, handle := 10, properties := 16, value_handle := 11 },
   { uuid := BODY_SENSOR_LOCATION_UUID, handle := 15, properties := 2, value_handle := 16 },
   { uuid := HEART_RATE_CONTROL_POINT_UUID, handle := 18, properties := 8, value_handle := 19 }]

/-- A measurement characteristic whose value handle is the last handle
0xFFFF. -/
def c_last_handle : gatt_char :=
  { uuid := HEART_RATE_MEASUREMENT_UUID, handle := 65534, properties := 16,
    value_handle := 65535 }

/-! ## Call sites, log output, and sequences of calls -/

/-- The completion callbacks that `heartrate.c` hands to the transport. -/
inductive Completion where
  | discover_char_cb
  | discover_ccc_cb
  | read_sensor_location_cb
  deriving DecidableEq, Repr

/-- The completion callback passed along with a call.  Each of the three
transport requests has one call site in `heartrate.c`: `gatt_discover_char` in
`attio_connected_cb`, `gatt_find_info` in `discover_measurement_ccc`, and
`gatt_read_char` in `discover_char_cb`.  The other calls take no completion. -/
def completion_of : Call → Option Completion
  | Call.gatt_discover_char _ _ _ => some Completion.discover_char_cb
  | Call.gatt_find_info _ _ _ => some Completion.discover_ccc_cb
  | Call.gatt_read_char _ _ _ => some Completion.read_sensor_location_cb
  | _ => none

/-- Whether a call is a request to the transport (one that is answered by a
completion). -/
def is_request (c : Call) : Bool := (completion_of c).isSome

/-- The format strings that `discover_ccc_cb` passes to `error`: the only
`error` call of the function is the one under `status != 0`. -/
def discover_ccc_cb_log (_lib : AttLib) (status : Nat) (_pdu : List Nat)
    (_len : Nat) : List String :=
  if status ≠ 0 then ["Discover Heart Rate Measurement descriptors failed: %s"]
  else []

/-- The events that reach a session once it is registered: the two attio
callbacks and the three completion callbacks, with their arguments. -/
inductive Event where
  | attio_connected (attrib : Option Nat)
  | attio_disconnected
  | discover_char (chars : List gatt_char) (status : Nat)
  | discover_ccc (status : Nat) (pdu : List Nat) (len : Nat)
  | read_sensor_location (status : Nat) (pdu : List Nat) (len : Nat)

/-- The callback that an event invokes on the session. -/
def apply_event (lib : AttLib) (hr : heartrate) : Event → heartrate × List Call
  | Event.attio_connected attrib => attio_connected_cb attrib hr
  | Event.attio_disconnected => attio_disconnected_cb hr
  | Event.discover_char chars status => discover_char_cb chars status hr
  | Event.discover_ccc status pdu len => discover_ccc_cb lib status pdu len hr
  | Event.read_sensor_location status pdu len => read_sensor_location_cb lib status pdu len hr

/-- The session after a sequence of events, first event first. -/
def run_events (lib : AttLib) (hr : heartrate) : List Event → heartrate
  | [] => hr
  | ev :: rest => run_events lib (apply_event lib hr ev).1 rest

/-- The four entry points of the profile, with their arguments. -/
inductive Op where
  | adapter_register (adapter : Nat)
  | adapter_unregister (adapter : Nat)
  | device_register (device : Nat) (prim : gatt_primary) (attioid : Nat)
  | device_unregister (device : Nat)

/-- The registry after one call of an entry point. -/
def apply_op (device_get_adapter : Nat → Nat) (reg : List heartrate_adapter) :
    Op → List heartrate_adapter
  | Op.adapter_register adapter => (heartrate_adapter_register reg adapter).2
  | Op.adapter_unregister adapter => (heartrate_adapter_unregister reg adapter).1
  | Op.device_register device prim attioid =>
    (heartrate_device_register device_get_adapter reg device prim attioid).2.1
  | Op.device_unregister device =>
    (heartrate_device_unregister device_get_adapter reg device).1

/-- The registry after a sequence of calls, first call first. -/
def run_ops (device_get_adapter : Nat → Nat) (reg : List heartrate_adapter) :
    List Op → List heartrate_adapter
  | [] => reg
  | op :: rest => run_ops device_get_adapter (apply_op device_get_adapter reg op) rest

/-- The number of contexts of the registry that belong to the adapter. -/
def contexts_of (reg : List heartrate_adapter) (adapter : Nat) : Nat :=
  reg.countP (fun x => decide (x.adapter = adapter))

/-- A sequence of calls in which the caller checks first: every
`heartrate_adapter_register` is made for an adapter that has no context at
that moment. -/
def caller_checks (device_get_adapter : Nat → Nat) (reg : List heartrate_adapter) :
    List Op → Bool
  | [] => true
  | op :: rest =>
    (match op with
      | Op.adapter_register adapter => (find_heartrate_adapter reg adapter).isNone
      | _ => true)
    && caller_checks device_get_adapter (apply_op device_get_adapter reg op) rest

/-! ## Theorems: the descriptor range -/

/-- C1: when the successor declaration handle (a 16-bit handle) is greater
than the matched value handle plus one, `discover_measurement_ccc` issues
exactly one descriptor discovery, over `[value_handle + 1, handle - 1]`, the
range is not empty, and the session (with whatever service range) is returned
as it was. -/
theorem C1_gap_range (hr : heartrate) (c n : gatt_char)
    (h16 : n.handle < U16) (hgap : n.handle > c.value_handle + 1) :
    discover_measurement_ccc hr c (some n)
        = (hr, [Call.gatt_find_info hr.attrib (c.value_handle + 1) (n.handle - 1)])
      ∧ c.value_handle + 1 ≤ n.handle - 1 := by
  have hs : (c.value_handle + 1) % U16 = c.value_handle + 1 :=
    Nat.mod_eq_of_lt (by omega)
  have he : (n.handle + (U16 - 1)) % U16 = n.handle - 1 := by
    unfold U16 at *
    omega
  have hne : ¬ c.value_handle + 1 = n.handle := by omega
  refine ⟨?_, by omega⟩
  simp only [discover_measurement_ccc, hs, he, hne, if_false]

/-- Witness of C1: value handle 11, successor declared at 15, scan over
`[12, 14]`. -/
theorem C1_gap_range_witness :
    discover_measurement_ccc hr_10_20
        { uuid := HEART_RATE_MEASUREMENT_UUID, handle := 10, properties := 16,
          value_handle := 11 }
        (some { uuid := BODY_SENSOR_LOCATION_UUID, handle := 15, properties := 2,
                value_handle := 16 })
      = (hr_10_20, [Call.gatt_find_info (some 1) 12 14]) ∧ 11 + 1 ≤ 15 - 1 :=
  C1_gap_range hr_10_20
    { uuid := HEART_RATE_MEASUREMENT_UUID, handle := 10, properties := 16,
      value_handle := 11 }
    { uuid := BODY_SENSOR_LOCATION_UUID, handle := 15, properties := 2,
      value_handle := 16 }
    (by decide) (by decide)

/-- C2: when the successor declaration handle (a 16-bit handle) equals the
matched value handle plus one, `discover_measurement_ccc` issues no request and
returns the session unchanged. -/
theorem C2_adjacent_none (hr : heartrate) (c n : gatt_char)
    (h16 : n.handle < U16) (hadj : n.handle = c.value_handle + 1) :
    discover_measurement_ccc hr c (some n) = (hr, []) := by
  have hs : (c.value_handle + 1) % U16 = n.handle := by
    rw [hadj]
    exact Nat.mod_eq_of_lt (by omega)
  simp only [discover_measurement_ccc, hs, if_true]

/-- Witness of C2: value handle 11, successor declared at 12. -/
theorem C2_adjacent_none_witness :
    discover_measurement_ccc hr_10_20
        { uuid := HEART_RATE_MEASUREMENT_UUID, handle := 10, properties := 16,
          value_handle := 11 }
        (some { uuid := BODY_SENSOR_LOCATION_UUID, handle := 12, properties := 2,
                value_handle := 13 })
      = (hr_10_20, []) :=
  C2_adjacent_none hr_10_20
    { uuid := HEART_RATE_MEASUREMENT_UUID, handle := 10, properties := 16,
      value_handle := 11 }
    { uuid := BODY_SENSOR_LOCATION_UUID, handle := 12, properties := 2,
      value_handle := 13 }
    (by decide) (by decide)

/-- C3, as stated, fails: with no successor, value handle 0xFFFF and service
end 20 (all 16-bit values), the value handle differs from the service end, and
the one request issued is over `[0, 20]`: the `uint16_t` start has wrapped, it
is not `value_handle + 1 = 65536`. -/
theorem C3_counterexample :
    c_last_handle.value_handle < U16 ∧ hr_10_20.svc_range.end_ < U16
      ∧ c_last_handle.value_handle ≠ hr_10_20.svc_range.end_
      ∧ discover_measurement_ccc hr_10_20 c_last_handle none
          = (hr_10_20, [Call.gatt_find_info (some 1) 0 20])
      ∧ discover_measurement_ccc hr_10_20 c_last_handle none
          ≠ (hr_10_20, [Call.gatt_find_info hr_10_20.attrib
              (c_last_handle.value_handle + 1) hr_10_20.svc_range.end_]) := by
  decide

/-- C3, amended: with no successor, `discover_measurement_ccc` issues no
request exactly when the value handle equals the end of the service range;
otherwise it issues exactly one descriptor discovery, which is over
`[value_handle + 1, svc_range.end]` whenever the value handle is below 0xFFFF.
The session is returned as it was. -/
theorem C3_no_successor (hr : heartrate) (c : gatt_char) :
    ((discover_measurement_ccc hr c none).2 = [] ↔ c.value_handle = hr.svc_range.end_)
      ∧ (c.value_handle = hr.svc_range.end_ →
          discover_measurement_ccc hr c none = (hr, []))
      ∧ (c.value_handle ≠ hr.svc_range.end_ →
          ∃ start, discover_measurement_ccc hr c none
            = (hr, [Call.gatt_find_info hr.attrib start hr.svc_range.end_]))
      ∧ (c.value_handle ≠ hr.svc_range.end_ → c.value_handle + 1 < U16 →
          discover_measurement_ccc hr c none
            = (hr, [Call.gatt_find_info hr.attrib (c.value_handle + 1)
                hr.svc_range.end_])) := by
  by_cases h : c.value_handle = hr.svc_range.end_
  · simp [discover_measurement_ccc, h]
  · refine ⟨?_, fun h2 => absurd h2 h, fun _ => ⟨(c.value_handle + 1) % U16, ?_⟩, fun _ hlt => ?_⟩
    · simp [discover_measurement_ccc, h]
    · simp only [discover_measurement_ccc, ne_eq, h, not_false_eq_true, if_true]
    · simp only [discover_measurement_ccc, ne_eq, h, not_false_eq_true, if_true,
        Nat.mod_eq_of_lt hlt]

/-- Witness of C3: the sole characteristic of the service `[10, 20]` with value
handle 11 gets a scan over `[12, 20]`. -/
theorem C3_no_successor_witness :
    discover_measurement_ccc hr_10_20
        { uuid := HEART_RATE_MEASUREMENT_UUID, handle := 10, properties := 16,
          value_handle := 11 } none
      = (hr_10_20, [Call.gatt_find_info (some 1) 12 20]) :=
  (C3_no_successor hr_10_20
    { uuid := HEART_RATE_MEASUREMENT_UUID, handle := 10, properties := 16,
      value_handle := 11 }).2.2.2 (by decide) (by decide)

/-! ## Theorems: the classification of the characteristic list -/

/-- The resolver never changes the session. -/
theorem discover_measurement_ccc_fst (hr : heartrate) (c : gatt_char)
    (c_next : Option gatt_char) : (discover_measurement_ccc hr c c_next).1 = hr := by
  unfold discover_measurement_ccc
  cases c_next with
  | none => dsimp only; split <;> rfl
  | some n => dsimp only; split <;> rfl

/-- Pairing a non-empty list with its successors exposes the head pair. -/
theorem zip_successors_cons (c : gatt_char) (next : List gatt_char) :
    (c :: next).zip (successors (c :: next))
      = (c, next.head?) :: next.zip (successors next) := by
  cases next with
  | nil => simp [successors]
  | cons d rest => simp [successors]

/-- The specification, started from any session and any requests already
issued, ends where the loop of `discover_char_cb` ends. -/
theorem foldl_classify_entry (chars : List gatt_char) :
    ∀ (hr : heartrate) (acc : List Call),
      (chars.zip (successors chars)).foldl classify_entry (hr, acc)
        = ((discover_char_loop hr chars).1, acc ++ (discover_char_loop hr chars).2) := by
  induction chars with
  | nil => intro hr acc; simp [successors, discover_char_loop]
  | cons c next ih =>
    intro hr acc
    rw [zip_successors_cons, List.foldl_cons]
    by_cases h1 : c.uuid = HEART_RATE_MEASUREMENT_UUID
    · have hid : identity c = Identity.measurement := by
        unfold identity; rw [if_pos h1]
      have hstep : classify_entry (hr, acc) (c, next.head?)
          = ({ hr with measurement_val_handle := c.value_handle },
              acc ++ (discover_measurement_ccc
                { hr with measurement_val_handle := c.value_handle } c next.head?).2) := by
        simp only [classify_entry, hid]
      rw [hstep, ih, discover_char_loop]
      simp only [if_pos h1, discover_measurement_ccc_fst, List.append_assoc]
    · by_cases h2 : c.uuid = BODY_SENSOR_LOCATION_UUID
      · have hid : identity c = Identity.location := by
          unfold identity; rw [if_neg h1, if_pos h2]
        have hstep : classify_entry (hr, acc) (c, next.head?)
            = (hr, acc ++ [Call.gatt_read_char hr.attrib c.value_handle 0]) := by
          simp only [classify_entry, hid]
        rw [hstep, ih, discover_char_loop]
        simp only [if_neg h1, if_pos h2, List.append_assoc]
      · by_cases h3 : c.uuid = HEART_RATE_CONTROL_POINT_UUID
        · have hid : identity c = Identity.controlPoint := by
            unfold identity; rw [if_neg h1, if_neg h2, if_pos h3]
          have hstep : classify_entry (hr, acc) (c, next.head?)
              = ({ hr with hrcp_val_handle := c.value_handle }, acc) := by
            simp only [classify_entry, hid]
          rw [hstep, ih, discover_char_loop]
          simp only [if_neg h1, if_neg h2, if_pos h3, List.nil_append]
        · have hid : identity c = Identity.other := by
            unfold identity; rw [if_neg h1, if_neg h2, if_neg h3]
          have hstep : classify_entry (hr, acc) (c, next.head?) = (hr, acc) := by
            simp only [classify_entry, hid]
          rw [hstep, ih, discover_char_loop]
          simp only [if_neg h1, if_neg h2, if_neg h3, List.nil_append]

/-- C4: with status 0, `discover_char_cb` does what the specification asks of
the classifier: the entries are handled in list order, each with the next
entry (or none) as successor; a measurement entry sets the measurement handle
and issues the scan the resolver gives, a location entry issues a read at
offset 0, a control point entry sets the control point handle, any other entry
does nothing.  In the scenario (service range `[10, 20]`) the outcome is
measurement handle 11, a scan over `[12, 14]`, then a read of handle 16, and
control point handle 19. -/
theorem C4_discover_char_cb_classifies :
    (∀ (chars : List gatt_char) (hr : heartrate),
        discover_char_cb chars 0 hr = classify chars hr)
      ∧ discover_char_cb scenario_chars 0 hr_10_20
          = ({ hr_10_20 with measurement_val_handle := 11, hrcp_val_handle := 19 },
             [Call.gatt_find_info (some 1) 12 14, Call.gatt_read_char (some 1) 16 0]) := by
  refine ⟨fun chars hr => ?_, by decide⟩
  simp [discover_char_cb, classify, foldl_classify_entry]

/-! ## Theorems: the completion callbacks -/

/-- The loop of `discover_ccc_cb` stops at the first entry with the client
characteristic configuration UUID. -/
theorem discover_ccc_loop_first (lib : AttLib) (hr : heartrate)
    (pre : List (List Nat)) (e : List Nat) (post : List (List Nat))
    (hpre : ∀ x ∈ pre, lib.att_get_u16 (x.drop 2) ≠ GATT_CLIENT_CHARAC_CFG_UUID)
    (he : lib.att_get_u16 (e.drop 2) = GATT_CLIENT_CHARAC_CFG_UUID) :
    discover_ccc_loop lib hr (pre ++ e :: post)
      = { hr with measurement_ccc_handle := lib.att_get_u16 e } := by
  induction pre with
  | nil => simp only [List.nil_append, discover_ccc_loop, he, if_true]
  | cons x rest ih =>
    have hx : ¬ lib.att_get_u16 (x.drop 2) = GATT_CLIENT_CHARAC_CFG_UUID :=
      hpre x (List.mem_cons_self x rest)
    simp only [List.cons_append, discover_ccc_loop, hx, if_false]
    exact ih (fun y hy => hpre y (List.mem_cons_of_mem x hy))

/-- The loop of `discover_ccc_cb` leaves the session alone when no entry has
the client characteristic configuration UUID. -/
theorem discover_ccc_loop_none (lib : AttLib) (hr : heartrate)
    (list : List (List Nat))
    (hall : ∀ x ∈ list, lib.att_get_u16 (x.drop 2) ≠ GATT_CLIENT_CHARAC_CFG_UUID) :
    discover_ccc_loop lib hr list = hr := by
  induction list with
  | nil => rfl
  | cons x rest ih =>
    have hx : ¬ lib.att_get_u16 (x.drop 2) = GATT_CLIENT_CHARAC_CFG_UUID :=
      hall x (List.mem_cons_self x rest)
    simp only [discover_ccc_loop, hx, if_false]
    exact ih (fun y hy => hall y (List.mem_cons_of_mem x hy))

/-- C5: on a completion with status 0 that decodes to the 16-bit format,
`discover_ccc_cb` sets the measurement configuration handle to the handle of
the first entry, in list order, whose UUID is the client characteristic
configuration (0x2902), whatever follows that entry, and changes no other
field; when no entry has that UUID the session is unchanged.  No request is
issued in either case. -/
theorem C5_discover_ccc_cb_first_match (lib : AttLib) (pdu : List Nat) (len : Nat)
    (hr : heartrate) (list : List (List Nat))
    (hdec : lib.dec_find_info_resp pdu len = some (ATT_FIND_INFO_RESP_FMT_16BIT, list)) :
    (∀ (pre : List (List Nat)) (e : List Nat) (post : List (List Nat)),
        list = pre ++ e :: post →
        (∀ x ∈ pre, lib.att_get_u16 (x.drop 2) ≠ GATT_CLIENT_CHARAC_CFG_UUID) →
        lib.att_get_u16 (e.drop 2) = GATT_CLIENT_CHARAC_CFG_UUID →
        discover_ccc_cb lib 0 pdu len hr
          = ({ hr with measurement_ccc_handle := lib.att_get_u16 e }, []))
      ∧ ((∀ x ∈ list, lib.att_get_u16 (x.drop 2) ≠ GATT_CLIENT_CHARAC_CFG_UUID) →
          discover_ccc_cb lib 0 pdu len hr = (hr, [])) := by
  have hcb : discover_ccc_cb lib 0 pdu len hr = (discover_ccc_loop lib hr list, []) := by
    simp [discover_ccc_cb, hdec]
  refine ⟨fun pre e post hl hpre he => ?_, fun hall => ?_⟩
  · rw [hcb, hl, discover_ccc_loop_first lib hr pre e post hpre he]
  · rw [hcb, discover_ccc_loop_none lib hr list hall]

/-- Witness of C5, the scenario: the response to the scan over `[12, 14]`
holds the single 16-bit entry with handle 13 and UUID 0x2902; the
configuration handle recorded is 13. -/
theorem C5_discover_ccc_cb_first_match_witness :
    discover_ccc_cb att_wire 0 [0x05, 0x01, 13, 0, 0x02, 0x29] 6 hr_10_20
      = ({ hr_10_20 with measurement_ccc_handle := 13 }, []) :=
  (C5_discover_ccc_cb_first_match att_wire [0x05, 0x01, 13, 0, 0x02, 0x29] 6 hr_10_20
    [[13, 0, 0x02, 0x29]] (by decide)).1 [] [13, 0, 0x02, 0x29] [] rfl
    (fun _ hx => absurd hx (List.not_mem_nil _)) (by decide)

/-- C9: with a non-zero status `discover_char_cb` returns at once: the session
is unchanged and no request is issued, whatever the list holds. -/
theorem C9_discover_char_cb_failure (chars : List gatt_char) (status : Nat)
    (hr : heartrate) (hst : status ≠ 0) :
    discover_char_cb chars status hr = (hr, []) := by
  simp only [discover_char_cb, hst, ne_eq, not_false_eq_true, if_true]

/-- Witness of C9: the scenario list delivered with status 1. -/
theorem C9_discover_char_cb_failure_witness :
    discover_char_cb scenario_chars 1 hr_10_20 = (hr_10_20, []) :=
  C9_discover_char_cb_failure scenario_chars 1 hr_10_20 (by decide)

/-- C10: `read_sensor_location_cb` sets the presence flag and records the
decoded byte when the status is 0 and the response decodes to exactly one
byte; in every other case (non-zero status, decode error, any other length)
the session is returned exactly as it was, so a presence flag that was unset
stays unset.  No request is issued. -/
theorem C10_read_sensor_location_cb (lib : AttLib) (status : Nat) (pdu : List Nat)
    (len : Nat) (hr : heartrate) :
    (status = 0 ∧ (lib.dec_read_resp pdu len 1).1 = 1 →
        read_sensor_location_cb lib status pdu len hr
          = ({ hr with has_location := true,
                       location := (lib.dec_read_resp pdu len 1).2 }, []))
      ∧ (¬ (status = 0 ∧ (lib.dec_read_resp pdu len 1).1 = 1) →
          read_sensor_location_cb lib status pdu len hr = (hr, [])
            ∧ (hr.has_location = false →
                (read_sensor_location_cb lib status pdu len hr).1.has_location = false)) := by
  constructor
  · rintro ⟨hs, hv⟩
    simp [read_sensor_location_cb, hs, hv]
  · intro hn
    have hsame : read_sensor_location_cb lib status pdu len hr = (hr, []) := by
      by_cases hs : status = 0
      · have hv : ¬ (lib.dec_read_resp pdu len 1).1 = 1 := fun hv => hn ⟨hs, hv⟩
        simp only [read_sensor_location_cb, hs, ne_eq, not_true_eq_false, if_false, hv,
          not_false_eq_true, if_true, ite_self]
      · simp only [read_sensor_location_cb, ne_eq, hs, not_false_eq_true, if_true]
    exact ⟨hsame, fun hf => by rw [hsame]; exact hf⟩

/-- Witness of C10, the scenario: a read response carrying two bytes where one
is expected is refused by the decoder, and the session stays as it was. -/
theorem C10_read_sensor_location_cb_witness :
    (read_sensor_location_cb att_wire 0 [0x0b, 1, 2] 3 hr_10_20 = (hr_10_20, [])
      ∧ (read_sensor_location_cb att_wire 0 [0x0b, 1, 2] 3 hr_10_20).1.has_location = false)
    ∧ read_sensor_location_cb att_wire 0 [0x0b, 3] 2 hr_10_20
        = ({ hr_10_20 with has_location := true, location := 3 }, []) :=
  ⟨((C10_read_sensor_location_cb att_wire 0 [0x0b, 1, 2] 3 hr_10_20).2 (by decide)).imp_right
      (fun h => h rfl),
    (C10_read_sensor_location_cb att_wire 0 [0x0b, 3] 2 hr_10_20).1 (by decide)⟩

/-! ## Theorems: the registry -/

/-- The search finds nothing exactly when no context belongs to the adapter. -/
theorem find_heartrate_adapter_none (adapters : List heartrate_adapter) (a : Nat) :
    find_heartrate_adapter adapters a = none ↔ ∀ x ∈ adapters, x.adapter ≠ a := by
  unfold find_heartrate_adapter
  induction adapters with
  | nil => simp [g_slist_find_custom]
  | cons x rest ih =>
    by_cases hx : a = x.adapter
    · simp [g_slist_find_custom, cmp_adapter, hx]
    · have hx2 : ¬ x.adapter = a := fun h => hx h.symm
      simp [g_slist_find_custom, cmp_adapter, hx, hx2, ih]

/-- A registry that holds a context of the adapter splits at the first one. -/
theorem exists_first_context (adapters : List heartrate_adapter) (a : Nat)
    (h : ∃ x ∈ adapters, x.adapter = a) :
    ∃ pre ctx post, adapters = pre ++ ctx :: post
      ∧ (∀ x ∈ pre, x.adapter ≠ a) ∧ ctx.adapter = a := by
  induction adapters with
  | nil => obtain ⟨x, hx, _⟩ := h; exact absurd hx (List.not_mem_nil x)
  | cons y rest ih =>
    by_cases hy : y.adapter = a
    · exact ⟨[], y, rest, rfl, fun x hx => absurd hx (List.not_mem_nil x), hy⟩
    · obtain ⟨x, hx, hxa⟩ := h
      have hrest : ∃ z ∈ rest, z.adapter = a := by
        rcases List.mem_cons.mp hx with hxy | hxr
        · exact absurd (hxy ▸ hxa) hy
        · exact ⟨x, hxr, hxa⟩
      obtain ⟨pre, ctx, post, hsplit, hpre, hctx⟩ := ih hrest
      refine ⟨y :: pre, ctx, post, by rw [hsplit]; rfl, ?_, hctx⟩
      intro z hz
      rcases List.mem_cons.mp hz with hzy | hzp
      · rw [hzy]; exact hy
      · exact hpre z hzp

/-- The search returns the first context of the adapter. -/
theorem find_heartrate_adapter_split (pre : List heartrate_adapter)
    (ctx : heartrate_adapter) (post : List heartrate_adapter) (a : Nat)
    (hpre : ∀ x ∈ pre, x.adapter ≠ a) (hctx : ctx.adapter = a) :
    find_heartrate_adapter (pre ++ ctx :: post) a = some ctx := by
  unfold find_heartrate_adapter
  induction pre with
  | nil => simp [g_slist_find_custom, cmp_adapter, hctx]
  | cons x rest ih =>
    have hx : ¬ a = x.adapter := fun h => hpre x (List.mem_cons_self x rest) h.symm
    simp only [List.cons_append, g_slist_find_custom, cmp_adapter, hx, if_false]
    have hne : ¬ ((-1 : Int) = 0) := by decide
    rw [if_neg hne]
    exact ih (fun y hy => hpre y (List.mem_cons_of_mem x hy))

/-- The assignment to `hradapter->devices` changes the first context of the
adapter and nothing else. -/
theorem set_devices_split (pre : List heartrate_adapter)
    (ctx : heartrate_adapter) (post : List heartrate_adapter) (a : Nat)
    (devices : List heartrate)
    (hpre : ∀ x ∈ pre, x.adapter ≠ a) (hctx : ctx.adapter = a) :
    set_devices (pre ++ ctx :: post) a devices
      = pre ++ { ctx with devices := devices } :: post := by
  induction pre with
  | nil => simp [set_devices, cmp_adapter, hctx]
  | cons x rest ih =>
    have hx : ¬ a = x.adapter := fun h => hpre x (List.mem_cons_self x rest) h.symm
    have hne : ¬ ((-1 : Int) = 0) := by decide
    simp only [List.cons_append, set_devices, cmp_adapter, hx, if_false]
    rw [if_neg hne]
    exact congrArg (List.cons x) (ih (fun y hy => hpre y (List.mem_cons_of_mem x hy)))

/-- C6: when no context of the registry belongs to the adapter that owns the
device, `heartrate_device_register` returns the non-zero status -1, leaves the
registry as it was (so no session is created) and makes no call: no device
reference is taken and no attach/detach callback is installed. -/
theorem C6_device_register_no_adapter (device_get_adapter : Nat → Nat)
    (adapters : List heartrate_adapter) (device : Nat) (prim : gatt_primary)
    (attioid : Nat)
    (hno : ∀ x ∈ adapters, x.adapter ≠ device_get_adapter device) :
    heartrate_device_register device_get_adapter adapters device prim attioid
        = (-1, adapters, [])
      ∧ (heartrate_device_register device_get_adapter adapters device prim attioid).1 ≠ 0 := by
  have hfind := (find_heartrate_adapter_none adapters (device_get_adapter device)).mpr hno
  have hres : heartrate_device_register device_get_adapter adapters device prim attioid
      = (-1, adapters, []) := by
    simp only [heartrate_device_register, hfind]
  refine ⟨hres, ?_⟩
  rw [hres]
  show ¬ ((-1 : Int) = 0)
  decide

/-- Witness of C6: device 37 is owned by adapter 3, which has no context. -/
theorem C6_device_register_no_adapter_witness :
    heartrate_device_register adapter_of registry_2_1 37 prim_10_20 5
        = (-1, registry_2_1, [])
      ∧ (heartrate_device_register adapter_of registry_2_1 37 prim_10_20 5).1 ≠ 0 :=
  C6_device_register_no_adapter adapter_of registry_2_1 37 prim_10_20 5 (by decide)

/-- C7: when the registry holds a context of the adapter that owns the device,
`heartrate_device_register` returns 0, takes a device reference, installs the
attach/detach callback, and puts one new session at the head of the session
list of the first such context: the session references the device, stores the
service range of `prim`, has no transport, has the three handles at 0 and the
location flag unset.  The rest of that list, the contexts before and after,
and their order are unchanged. -/
theorem C7_device_register_prepends (device_get_adapter : Nat → Nat)
    (adapters : List heartrate_adapter) (device : Nat) (prim : gatt_primary)
    (attioid : Nat)
    (hctx : ∃ x ∈ adapters, x.adapter = device_get_adapter device) :
    ∃ pre ctx post, adapters = pre ++ ctx :: post
      ∧ (∀ x ∈ pre, x.adapter ≠ device_get_adapter device)
      ∧ ctx.adapter = device_get_adapter device
      ∧ heartrate_device_register device_get_adapter adapters device prim attioid
          = (0,
             pre ++ { ctx with devices :=
                { dev := device, hradapter := device_get_adapter device, attrib := none,
                  attioid := attioid, svc_range := prim.range,
                  measurement_val_handle := 0, measurement_ccc_handle := 0,
                  hrcp_val_handle := 0, has_location := false, location := 0 }
                  :: ctx.devices } :: post,
             [Call.btd_device_ref device, Call.btd_device_add_attio_callback device]) := by
  obtain ⟨pre, ctx, post, hsplit, hpre, hc⟩ :=
    exists_first_context adapters (device_get_adapter device) hctx
  refine ⟨pre, ctx, post, hsplit, hpre, hc, ?_⟩
  have hfind := find_heartrate_adapter_split pre ctx post (device_get_adapter device) hpre hc
  rw [hsplit]
  simp only [heartrate_device_register, hfind, g_slist_prepend,
    set_devices_split pre ctx post (device_get_adapter device) _ hpre hc, hc]

/-- Witness of C7: device 12 of adapter 1 is registered in a registry whose
second context is the one of adapter 1 and already holds a session. -/
theorem C7_device_register_prepends_witness :
    ∃ pre ctx post, registry_2_1 = pre ++ ctx :: post
      ∧ (∀ x ∈ pre, x.adapter ≠ adapter_of 12)
      ∧ ctx.adapter = adapter_of 12
      ∧ heartrate_device_register adapter_of registry_2_1 12 prim_10_20 5
          = (0,
             pre ++ { ctx with devices :=
                { dev := 12, hradapter := adapter_of 12, attrib := none,
                  attioid := 5, svc_range := prim_10_20.range,
                  measurement_val_handle := 0, measurement_ccc_handle := 0,
                  hrcp_val_handle := 0, has_location := false, location := 0 }
                  :: ctx.devices } :: post,
             [Call.btd_device_ref 12, Call.btd_device_add_attio_callback 12]) :=
  C7_device_register_prepends adapter_of registry_2_1 12 prim_10_20 5
    ⟨{ adapter := 1, devices := [{ hr_10_20 with dev := 11 }] }, by decide, by decide⟩

/-- A context returned by the search is the first of the adapter in the list. -/
theorem find_heartrate_adapter_some (adapters : List heartrate_adapter) (a : Nat)
    (ctx : heartrate_adapter) (h : find_heartrate_adapter adapters a = some ctx) :
    ∃ pre post, adapters = pre ++ ctx :: post
      ∧ (∀ x ∈ pre, x.adapter ≠ a) ∧ ctx.adapter = a := by
  have hex : ∃ x ∈ adapters, x.adapter = a := by
    by_contra hcon
    have hnone := (find_heartrate_adapter_none adapters a).mpr
      (fun x hx hxa => hcon ⟨x, hx, hxa⟩)
    rw [hnone] at h
    exact Option.noConfusion h
  obtain ⟨pre, c, post, hsplit, hpre, hc⟩ := exists_first_context adapters a hex
  have hfind := find_heartrate_adapter_split pre c post a hpre hc
  rw [← hsplit, h] at hfind
  have hcc : ctx = c := Option.some.inj hfind
  exact ⟨pre, post, by rw [hcc]; exact hsplit, hpre, by rw [hcc]; exact hc⟩

/-- A session returned by the search of a session list belongs to the device. -/
theorem find_device_dev (l : List heartrate) (d : Nat) (hr : heartrate)
    (h : g_slist_find_custom l d cmp_device = some hr) : hr.dev = d := by
  induction l with
  | nil => simp [g_slist_find_custom] at h
  | cons x rest ih =>
    by_cases hx : d = x.dev
    · simp [g_slist_find_custom, cmp_device, hx] at h
      rw [← h]; exact hx.symm
    · simp [g_slist_find_custom, cmp_device, hx] at h
      exact ih h

/-- A session list without a session of the device is searched in vain. -/
theorem find_device_none (l : List heartrate) (d : Nat)
    (h : l.countP (fun s => decide (s.dev = d)) = 0) :
    g_slist_find_custom l d cmp_device = none := by
  induction l with
  | nil => rfl
  | cons x rest ih =>
    by_cases hx : x.dev = d
    · simp [List.countP_cons, hx] at h
    · have hx2 : ¬ d = x.dev := fun e => hx e.symm
      simp [List.countP_cons, hx] at h
      simp [g_slist_find_custom, cmp_device, hx2]
      exact ih (by simpa using h)

/-- Once the only session of the device is removed, the search finds none. -/
theorem find_device_remove (l : List heartrate) (d : Nat) (hr : heartrate)
    (h : g_slist_find_custom l d cmp_device = some hr)
    (hone : l.countP (fun s => decide (s.dev = d)) ≤ 1) :
    g_slist_find_custom (g_slist_remove l hr) d cmp_device = none := by
  induction l with
  | nil => rfl
  | cons x rest ih =>
    by_cases hx : x.dev = d
    · have hx2 : d = x.dev := hx.symm
      have hxr : x = hr := by
        simpa [g_slist_find_custom, cmp_device, hx2] using h
      have hcount : rest.countP (fun s => decide (s.dev = d)) = 0 := by
        simp [List.countP_cons, hx] at hone
        simpa using hone
      simp only [g_slist_remove, hxr, if_true]
      exact find_device_none rest d hcount
    · have hx2 : ¬ d = x.dev := fun e => hx e.symm
      have hrest : g_slist_find_custom rest d cmp_device = some hr := by
        simpa [g_slist_find_custom, cmp_device, hx2] using h
      have hne : ¬ x = hr := fun e => hx (e ▸ find_device_dev rest d hr hrest)
      have hcount : rest.countP (fun s => decide (s.dev = d)) ≤ 1 := by
        simpa [List.countP_cons, hx] using hone
      simp only [g_slist_remove, hne, if_false]
      simp only [g_slist_find_custom, cmp_device, hx2, if_false]
      have hm : ¬ ((-1 : Int) = 0) := by decide
      rw [if_neg hm]
      exact ih hrest hcount

/-- C8, as stated, fails: in a registry where device 17 has two sessions under
its adapter, the first unregistration removes and tears down the first
session, the second one removes and tears down the other: the registry after
two calls differs from the registry after one, and the second call makes
teardown calls. -/
theorem C8_counterexample :
    (heartrate_device_unregister adapter_of registry_twice 17).1
        = [{ adapter := 1, devices := [{ hr_10_20 with dev := 17 }] }]
      ∧ heartrate_device_unregister adapter_of
          (heartrate_device_unregister adapter_of registry_twice 17).1 17
        = ([{ adapter := 1, devices := [] }],
           [Call.btd_device_remove_attio_callback 17 1, Call.g_attrib_unref (some 1),
            Call.btd_device_unref 17])
      ∧ (heartrate_device_unregister adapter_of
          (heartrate_device_unregister adapter_of registry_twice 17).1 17).1
        ≠ (heartrate_device_unregister adapter_of registry_twice 17).1 := by
  decide

/-- C8, amended: when the context found for the adapter of the device holds at
most one session of the device, unregistering the device a second time changes
nothing: the registry after the second call is the registry after the first
one, and the second call makes no teardown call. -/
theorem C8_device_unregister_twice (device_get_adapter : Nat → Nat)
    (adapters : List heartrate_adapter) (device : Nat)
    (hone : ∀ ctx, find_heartrate_adapter adapters (device_get_adapter device) = some ctx →
      ctx.devices.countP (fun s => decide (s.dev = device)) ≤ 1) :
    heartrate_device_unregister device_get_adapter
        (heartrate_device_unregister device_get_adapter adapters device).1 device
      = ((heartrate_device_unregister device_get_adapter adapters device).1, []) := by
  cases hfa : find_heartrate_adapter adapters (device_get_adapter device) with
  | none =>
    have h1 : heartrate_device_unregister device_get_adapter adapters device
        = (adapters, []) := by
      simp only [heartrate_device_unregister, hfa]
    rw [h1]
    exact h1
  | some ctx =>
    cases hfd : g_slist_find_custom ctx.devices device cmp_device with
    | none =>
      have h1 : heartrate_device_unregister device_get_adapter adapters device
          = (adapters, []) := by
        simp only [heartrate_device_unregister, hfa, hfd]
      rw [h1]
      exact h1
    | some hr =>
      obtain ⟨pre, post, hsplit, hpre, hc⟩ :=
        find_heartrate_adapter_some adapters (device_get_adapter device) ctx hfa
      have h1 : heartrate_device_unregister device_get_adapter adapters device
          = (pre ++ { ctx with devices := g_slist_remove ctx.devices hr } :: post,
             destroy_heartrate hr) := by
        simp only [heartrate_device_unregister, hfa, hfd]
        rw [hsplit, set_devices_split pre ctx post (device_get_adapter device) _ hpre hc]
      have hfa2 := find_heartrate_adapter_split pre
        { ctx with devices := g_slist_remove ctx.devices hr } post
        (device_get_adapter device) hpre hc
      have hfd2 := find_device_remove ctx.devices device hr hfd (hone ctx hfa)
      rw [h1]
      simp only [heartrate_device_unregister, hfa2, hfd2]

/-- Witness of C8: device 11 has one session under adapter 1; the first call
removes it, the second call finds nothing. -/
theorem C8_device_unregister_twice_witness :
    heartrate_device_unregister adapter_of
        (heartrate_device_unregister adapter_of registry_2_1 11).1 11
      = ((heartrate_device_unregister adapter_of registry_2_1 11).1, []) :=
  C8_device_unregister_twice adapter_of registry_2_1 11
    (fun ctx h => by
      have hc : ctx = { adapter := 1, devices := [{ hr_10_20 with dev := 11 }] } :=
        (Option.some.inj h).symm
      rw [hc]
      decide)

/-! ## Theorems: attach and detach -/

/-- C11: `attio_disconnected_cb` releases the transport and sets the transport
handle to none; the measurement, configuration and control point handles, the
location and its presence flag, the service range, the device and the callback
token are as before.  An `attio_connected_cb` that follows stores the new
transport and issues the characteristic discovery over the whole service
range. -/
theorem C11_disconnect_clears_transport_only (hr : heartrate) (attrib : Option Nat) :
    attio_disconnected_cb hr = ({ hr with attrib := none }, [Call.g_attrib_unref hr.attrib])
      ∧ ((attio_disconnected_cb hr).1.attrib = none
        ∧ (attio_disconnected_cb hr).1.measurement_val_handle = hr.measurement_val_handle
        ∧ (attio_disconnected_cb hr).1.measurement_ccc_handle = hr.measurement_ccc_handle
        ∧ (attio_disconnected_cb hr).1.hrcp_val_handle = hr.hrcp_val_handle
        ∧ (attio_disconnected_cb hr).1.location = hr.location
        ∧ (attio_disconnected_cb hr).1.has_location = hr.has_location
        ∧ (attio_disconnected_cb hr).1.svc_range = hr.svc_range
        ∧ (attio_disconnected_cb hr).1.dev = hr.dev)
      ∧ attio_connected_cb attrib (attio_disconnected_cb hr).1
          = ({ hr with attrib := attrib },
             [Call.g_attrib_ref attrib,
              Call.gatt_discover_char attrib hr.svc_range.start hr.svc_range.end_]) := by
  refine ⟨rfl, ⟨rfl, rfl, rfl, rfl, rfl, rfl, rfl, rfl⟩, rfl⟩

/-- C17: `attio_connected_cb` stores the transport handle it is given, takes a
reference on it, and issues exactly one request: a characteristic discovery
over `[svc_range.start, svc_range.end]`, whose completion is
`discover_char_cb`.  No other field of the session changes, in particular no
resolved handle, nor the location, nor its presence flag. -/
theorem C17_connect_issues_discovery (attrib : Option Nat) (hr : heartrate) :
    (attio_connected_cb attrib hr).1 = { hr with attrib := attrib }
      ∧ (attio_connected_cb attrib hr).2
          = [Call.g_attrib_ref attrib,
             Call.gatt_discover_char attrib hr.svc_range.start hr.svc_range.end_]
      ∧ (attio_connected_cb attrib hr).2.filter is_request
          = [Call.gatt_discover_char attrib hr.svc_range.start hr.svc_range.end_]
      ∧ completion_of
          (Call.gatt_discover_char attrib hr.svc_range.start hr.svc_range.end_)
          = some Completion.discover_char_cb
      ∧ ((attio_connected_cb attrib hr).1.measurement_val_handle = hr.measurement_val_handle
        ∧ (attio_connected_cb attrib hr).1.measurement_ccc_handle = hr.measurement_ccc_handle
        ∧ (attio_connected_cb attrib hr).1.hrcp_val_handle = hr.hrcp_val_handle
        ∧ (attio_connected_cb attrib hr).1.location = hr.location
        ∧ (attio_connected_cb attrib hr).1.has_location = hr.has_location) := by
  refine ⟨rfl, rfl, ?_, rfl, ⟨rfl, rfl, rfl, rfl, rfl⟩⟩
  simp [attio_connected_cb, is_request, completion_of]

/-! ## Theorems: descriptor formats -/

/-- C16: on a completion with status 0 whose decoded format is not the 16-bit
one, `discover_ccc_cb` goes straight to freeing the list: the session, and in
particular the measurement configuration handle, is unchanged whatever the
entries hold, no request is issued, and nothing is passed to `error`. -/
theorem C16_other_format_records_nothing (lib : AttLib) (pdu : List Nat) (len : Nat)
    (hr : heartrate) (format : Nat) (list : List (List Nat))
    (hdec : lib.dec_find_info_resp pdu len = some (format, list))
    (hfmt : format ≠ ATT_FIND_INFO_RESP_FMT_16BIT) :
    discover_ccc_cb lib 0 pdu len hr = (hr, [])
      ∧ (discover_ccc_cb lib 0 pdu len hr).1.measurement_ccc_handle
          = hr.measurement_ccc_handle
      ∧ discover_ccc_cb_log lib 0 pdu len = [] := by
  have h : discover_ccc_cb lib 0 pdu len hr = (hr, []) := by
    simp [discover_ccc_cb, hdec, hfmt]
  exact ⟨h, by rw [h], rfl⟩

/-- Witness of C16: a response in the 128-bit format whose single entry has
handle 13 and bytes 0x02 0x29 at offset 2, which read as a 16-bit value are
0x2902; the session is unchanged. -/
theorem C16_other_format_records_nothing_witness :
    att_wire.att_get_u16
        (List.drop 2 [13, 0, 0x02, 0x29, 0, 0, 0, 0, 0, 0, 0, 0, 0, 0, 0, 0, 0, 0])
        = GATT_CLIENT_CHARAC_CFG_UUID
      ∧ (discover_ccc_cb att_wire 0
            [0x05, 0x02, 13, 0, 0x02, 0x29, 0, 0, 0, 0, 0, 0, 0, 0, 0, 0, 0, 0, 0, 0] 20
            hr_10_20 = (hr_10_20, [])
        ∧ (discover_ccc_cb att_wire 0
            [0x05, 0x02, 13, 0, 0x02, 0x29, 0, 0, 0, 0, 0, 0, 0, 0, 0, 0, 0, 0, 0, 0] 20
            hr_10_20).1.measurement_ccc_handle = hr_10_20.measurement_ccc_handle
        ∧ discover_ccc_cb_log att_wire 0
            [0x05, 0x02, 13, 0, 0x02, 0x29, 0, 0, 0, 0, 0, 0, 0, 0, 0, 0, 0, 0, 0, 0] 20 = []) :=
  ⟨by decide,
   C16_other_format_records_nothing att_wire
    [0x05, 0x02, 13, 0, 0x02, 0x29, 0, 0, 0, 0, 0, 0, 0, 0, 0, 0, 0, 0, 0, 0] 20 hr_10_20
    2 [[13, 0, 0x02, 0x29, 0, 0, 0, 0, 0, 0, 0, 0, 0, 0, 0, 0, 0, 0]]
    (by decide) (by decide)⟩

/-! ## Theorems: adapters in the registry -/

/-- Removing an element that does not occur before its first position takes
out exactly that position. -/
theorem g_slist_remove_split {α : Type} [DecidableEq α] (pre : List α) (x : α)
    (post : List α) (hpre : ∀ y ∈ pre, y ≠ x) :
    g_slist_remove (pre ++ x :: post) x = pre ++ post := by
  induction pre with
  | nil => simp [g_slist_remove]
  | cons y rest ih =>
    have hy : ¬ y = x := hpre y (List.mem_cons_self y rest)
    simp only [List.cons_append, g_slist_remove, hy, if_false]
    exact congrArg (List.cons y) (ih (fun z hz => hpre z (List.mem_cons_of_mem y hz)))

/-- C14: `heartrate_adapter_register` returns 0 and puts a new context for the
adapter, with an empty session list, at the head of the registry; the contexts
that were there follow unchanged.  There is no search for an existing context:
the number of contexts grows by one, and so does the number of contexts of
that adapter, whatever it was. -/
theorem C14_adapter_register_prepends (adapters : List heartrate_adapter) (a : Nat) :
    heartrate_adapter_register adapters a
        = (0, { adapter := a, devices := [] } :: adapters)
      ∧ (heartrate_adapter_register adapters a).2.length = adapters.length + 1
      ∧ contexts_of (heartrate_adapter_register adapters a).2 a
          = contexts_of adapters a + 1
      ∧ heartrate_adapter_register (heartrate_adapter_register adapters a).2 a
          = (0, { adapter := a, devices := [] } :: { adapter := a, devices := [] }
                  :: adapters) := by
  refine ⟨rfl, rfl, ?_, rfl⟩
  simp [heartrate_adapter_register, g_slist_prepend, contexts_of, List.countP_cons]

/-- C12: `heartrate_adapter_unregister` removes the first context, in list
order, that belongs to the adapter, and keeps every other context, in the same
order; when no context belongs to the adapter the registry is unchanged.  In
both cases no call is made: no callback is cancelled and no device or
transport reference is released, whatever sessions the removed context
holds. -/
theorem C12_adapter_unregister_first (adapters : List heartrate_adapter) (a : Nat) :
    (∀ (pre : List heartrate_adapter) (ctx : heartrate_adapter)
        (post : List heartrate_adapter),
        adapters = pre ++ ctx :: post → (∀ x ∈ pre, x.adapter ≠ a) → ctx.adapter = a →
        heartrate_adapter_unregister adapters a = (pre ++ post, []))
      ∧ ((∀ x ∈ adapters, x.adapter ≠ a) →
          heartrate_adapter_unregister adapters a = (adapters, []))
      ∧ (heartrate_adapter_unregister adapters a).2 = [] := by
  refine ⟨fun pre ctx post hsplit hpre hc => ?_, fun hno => ?_, ?_⟩
  · have hfind := find_heartrate_adapter_split pre ctx post a hpre hc
    have hne : ∀ y ∈ pre, y ≠ ctx := fun y hy e => hpre y hy (e ▸ hc)
    rw [hsplit]
    simp only [heartrate_adapter_unregister, hfind, destroy_heartrate_adapter,
      g_slist_remove_split pre ctx post hne]
  · have hfind := (find_heartrate_adapter_none adapters a).mpr hno
    simp only [heartrate_adapter_unregister, hfind]
  · unfold heartrate_adapter_unregister
    cases find_heartrate_adapter adapters a with
    | none => rfl
    | some ctx => rfl

/-- Witness of C12: adapter 1 is unregistered from a registry whose second
context is its own and holds a session of device 11; the context goes, the
context of adapter 2 stays, and no teardown call is made. -/
theorem C12_adapter_unregister_first_witness :
    heartrate_adapter_unregister registry_2_1 1
      = ([{ adapter := 2, devices := [] }], []) :=
  (C12_adapter_unregister_first registry_2_1 1).1
    [{ adapter := 2, devices := [] }]
    { adapter := 1, devices := [{ hr_10_20 with dev := 11 }] } [] rfl
    (by decide) rfl

/-- C19: when the registry holds a context of the adapter that owns the
device, `heartrate_device_register` followed at once by
`heartrate_device_unregister` of the same device gives back the registry as it
was, contexts and session lists alike, also when the device already had a
session: the session removed and torn down is the one just put at the head. -/
theorem C19_register_unregister_round_trip (device_get_adapter : Nat → Nat)
    (adapters : List heartrate_adapter) (device : Nat) (prim : gatt_primary)
    (attioid : Nat)
    (hctx : ∃ x ∈ adapters, x.adapter = device_get_adapter device) :
    heartrate_device_unregister device_get_adapter
        (heartrate_device_register device_get_adapter adapters device prim attioid).2.1
        device
      = (adapters,
         destroy_heartrate
           { dev := device, hradapter := device_get_adapter device, attrib := none,
             attioid := attioid, svc_range := prim.range,
             measurement_val_handle := 0, measurement_ccc_handle := 0,
             hrcp_val_handle := 0, has_location := false, location := 0 }) := by
  obtain ⟨pre, ctx, post, hsplit, hpre, hc⟩ :=
    exists_first_context adapters (device_get_adapter device) hctx
  have hfind := find_heartrate_adapter_split pre ctx post (device_get_adapter device) hpre hc
  have hreg : (heartrate_device_register device_get_adapter adapters device prim attioid).2.1
      = pre ++ { ctx with devices :=
          { dev := device, hradapter := device_get_adapter device, attrib := none,
            attioid := attioid, svc_range := prim.range,
            measurement_val_handle := 0, measurement_ccc_handle := 0,
            hrcp_val_handle := 0, has_location := false, location := 0 }
            :: ctx.devices } :: post := by
    rw [hsplit]
    simp only [heartrate_device_register, hfind, g_slist_prepend,
      set_devices_split pre ctx post (device_get_adapter device) _ hpre hc, hc]
  have hfind2 := find_heartrate_adapter_split pre
    { ctx with devices :=
          { dev := device, hradapter := device_get_adapter device, attrib := none,
            attioid := attioid, svc_range := prim.range,
            measurement_val_handle := 0, measurement_ccc_handle := 0,
            hrcp_val_handle := 0, has_location := false, location := 0 }
            :: ctx.devices } post (device_get_adapter device) hpre hc
  have hset := set_devices_split pre
    { ctx with devices :=
          { dev := device, hradapter := device_get_adapter device, attrib := none,
            attioid := attioid, svc_range := prim.range,
            measurement_val_handle := 0, measurement_ccc_handle := 0,
            hrcp_val_handle := 0, has_location := false, location := 0 }
            :: ctx.devices } post (device_get_adapter device) ctx.devices hpre hc
  rw [hreg]
  simp only [heartrate_device_unregister, hfind2, g_slist_find_custom, cmp_device,
    if_true, g_slist_remove]
  rw [hset, hsplit]

/-- Witness of C19: device 11 of adapter 1, which already has a session, is
registered again and unregistered at once. -/
theorem C19_register_unregister_round_trip_witness :
    heartrate_device_unregister adapter_of
        (heartrate_device_register adapter_of registry_2_1 11 prim_10_20 5).2.1 11
      = (registry_2_1,
         destroy_heartrate
           { dev := 11, hradapter := adapter_of 11, attrib := none,
             attioid := 5, svc_range := prim_10_20.range,
             measurement_val_handle := 0, measurement_ccc_handle := 0,
             hrcp_val_handle := 0, has_location := false, location := 0 }) :=
  C19_register_unregister_round_trip adapter_of registry_2_1 11 prim_10_20 5
    ⟨{ adapter := 1, devices := [{ hr_10_20 with dev := 11 }] }, by decide, by decide⟩

/-! ## Theorems: the number of contexts per adapter -/

/-- The assignment to `hradapter->devices` does not change which adapters the
contexts belong to. -/
theorem contexts_of_set_devices (reg : List heartrate_adapter) (b : Nat)
    (devices : List heartrate) (a : Nat) :
    contexts_of (set_devices reg b devices) a = contexts_of reg a := by
  induction reg with
  | nil => rfl
  | cons x rest ih =>
    by_cases hx : b = x.adapter
    · simp [set_devices, cmp_adapter, hx, contexts_of, List.countP_cons]
    · have hne : ¬ ((-1 : Int) = 0) := by decide
      simp only [set_devices, cmp_adapter, hx, if_false]
      rw [if_neg hne]
      simp only [contexts_of, List.countP_cons] at ih ⊢
      rw [ih]

/-- What `g_slist_remove` returns is a sublist of its argument. -/
theorem g_slist_remove_sublist {α : Type} [DecidableEq α] (l : List α) (x : α) :
    List.Sublist (g_slist_remove l x) l := by
  induction l with
  | nil => exact List.Sublist.slnil
  | cons y rest ih =>
    by_cases hy : y = x
    · simp only [g_slist_remove, hy, if_true]
      exact List.sublist_cons_self x rest
    · simp only [g_slist_remove, hy, if_false]
      exact List.Sublist.cons₂ y ih

/-- One call of an entry point keeps at most one context per adapter, provided
that a `heartrate_adapter_register` is made for an adapter without context. -/
theorem contexts_of_apply_op (device_get_adapter : Nat → Nat)
    (reg : List heartrate_adapter) (op : Op)
    (hinv : ∀ a, contexts_of reg a ≤ 1)
    (hcheck : ∀ b, op = Op.adapter_register b → find_heartrate_adapter reg b = none) :
    ∀ a, contexts_of (apply_op device_get_adapter reg op) a ≤ 1 := by
  intro a
  cases op with
  | adapter_register b =>
    have hnone := (find_heartrate_adapter_none reg b).mp (hcheck b rfl)
    by_cases hba : b = a
    · have hzero : contexts_of reg a = 0 := by
        unfold contexts_of
        rw [List.countP_eq_zero]
        intro x hx
        simpa using fun h => hnone x hx (h.trans hba.symm)
      simp only [apply_op, heartrate_adapter_register, g_slist_prepend, contexts_of,
        List.countP_cons] at hzero ⊢
      rw [hzero]
      split <;> decide
    · have h := hinv a
      simp only [apply_op, heartrate_adapter_register, g_slist_prepend, contexts_of,
        List.countP_cons] at h ⊢
      simp [hba, h]
  | adapter_unregister b =>
    simp only [apply_op, heartrate_adapter_unregister]
    cases find_heartrate_adapter reg b with
    | none => exact hinv a
    | some ctx =>
      exact le_trans (List.Sublist.countP_le _ (g_slist_remove_sublist reg ctx)) (hinv a)
  | device_register device prim attioid =>
    simp only [apply_op, heartrate_device_register]
    cases find_heartrate_adapter reg (device_get_adapter device) with
    | none => exact hinv a
    | some ctx =>
      simp only [contexts_of_set_devices]
      exact hinv a
  | device_unregister device =>
    simp only [apply_op, heartrate_device_unregister]
    cases find_heartrate_adapter reg (device_get_adapter device) with
    | none => exact hinv a
    | some ctx =>
      dsimp only
      cases g_slist_find_custom ctx.devices device cmp_device with
      | none => exact hinv a
      | some hr =>
        dsimp only
        rw [contexts_of_set_devices]
        exact hinv a

/-- A sequence of calls in which the caller checks first keeps at most one
context per adapter, from any registry that has at most one. -/
theorem contexts_of_run_ops (device_get_adapter : Nat → Nat) (ops : List Op) :
    ∀ (reg : List heartrate_adapter), (∀ a, contexts_of reg a ≤ 1) →
      caller_checks device_get_adapter reg ops = true →
      ∀ a, contexts_of (run_ops device_get_adapter reg ops) a ≤ 1 := by
  induction ops with
  | nil => intro reg hinv _ a; exact hinv a
  | cons op rest ih =>
    intro reg hinv hchk a
    simp only [caller_checks, Bool.and_eq_true] at hchk
    have hstep := contexts_of_apply_op device_get_adapter reg op hinv (by
      intro b hb
      have h1 := hchk.1
      rw [hb] at h1
      simpa [Option.isNone_iff_eq_none] using h1)
    exact ih (apply_op device_get_adapter reg op) hstep hchk.2 a

/-- C13, as stated, fails: from the empty registry, two calls of
`heartrate_adapter_register` for adapter 1 give a registry with two contexts
of adapter 1. -/
theorem C13_counterexample :
    run_ops adapter_of [] [Op.adapter_register 1, Op.adapter_register 1]
        = [{ adapter := 1, devices := [] }, { adapter := 1, devices := [] }]
      ∧ contexts_of
          (run_ops adapter_of [] [Op.adapter_register 1, Op.adapter_register 1]) 1 = 2
      ∧ ¬ (∀ a, contexts_of
          (run_ops adapter_of [] [Op.adapter_register 1, Op.adapter_register 1]) a ≤ 1) := by
  refine ⟨by decide, by decide, fun h => ?_⟩
  exact absurd (h 1) (by decide)

/-- C13, amended: in every registry state reached from the empty registry by
a sequence of calls of the four entry points in which
`heartrate_adapter_register` is only called for an adapter that has no context
at that moment, at most one context exists per adapter. -/
theorem C13_one_context_when_caller_checks (device_get_adapter : Nat → Nat)
    (ops : List Op) (hchk : caller_checks device_get_adapter [] ops = true) :
    ∀ a, contexts_of (run_ops device_get_adapter [] ops) a ≤ 1 :=
  contexts_of_run_ops device_get_adapter ops [] (fun _ => Nat.zero_le 1) hchk

/-- Witness of C13: adapter 1 is registered, a device of it is registered,
the adapter is unregistered and registered again. -/
theorem C13_one_context_when_caller_checks_witness :
    caller_checks adapter_of []
        [Op.adapter_register 1, Op.device_register 11 prim_10_20 5,
         Op.adapter_unregister 1, Op.adapter_register 1] = true
      ∧ contexts_of
        (run_ops adapter_of []
          [Op.adapter_register 1, Op.device_register 11 prim_10_20 5,
           Op.adapter_unregister 1, Op.adapter_register 1]) 1 ≤ 1 :=
  ⟨by decide,
   C13_one_context_when_caller_checks adapter_of
    [Op.adapter_register 1, Op.device_register 11 prim_10_20 5,
     Op.adapter_unregister 1, Op.adapter_register 1] (by decide) 1⟩

/-! ## Theorems: what the callbacks leave alone -/

/-- The loop of `discover_char_cb` writes the measurement handle and the
control point handle and no other field. -/
theorem discover_char_loop_frame (chars : List gatt_char) :
    ∀ hr : heartrate, ∃ m p, (discover_char_loop hr chars).1
      = { hr with measurement_val_handle := m, hrcp_val_handle := p } := by
  induction chars with
  | nil => intro hr; exact ⟨hr.measurement_val_handle, hr.hrcp_val_handle, rfl⟩
  | cons c next ih =>
    intro hr
    rw [discover_char_loop]
    by_cases h1 : c.uuid = HEART_RATE_MEASUREMENT_UUID
    · simp only [if_pos h1, discover_measurement_ccc_fst]
      obtain ⟨m, p, h⟩ := ih { hr with measurement_val_handle := c.value_handle }
      exact ⟨m, p, by rw [h]⟩
    · by_cases h2 : c.uuid = BODY_SENSOR_LOCATION_UUID
      · simp only [if_neg h1, if_pos h2]
        exact ih hr
      · by_cases h3 : c.uuid = HEART_RATE_CONTROL_POINT_UUID
        · simp only [if_neg h1, if_neg h2, if_pos h3]
          obtain ⟨m, p, h⟩ := ih { hr with hrcp_val_handle := c.value_handle }
          exact ⟨m, p, by rw [h]⟩
        · simp only [if_neg h1, if_neg h2, if_neg h3]
          exact ih hr

/-- The callback `discover_char_cb` writes the measurement handle and the
control point handle and no other field. -/
theorem discover_char_cb_frame (chars : List gatt_char) (status : Nat) (hr : heartrate) :
    ∃ m p, (discover_char_cb chars status hr).1
      = { hr with measurement_val_handle := m, hrcp_val_handle := p } := by
  unfold discover_char_cb
  by_cases hs : status ≠ 0
  · rw [if_pos hs]
    exact ⟨hr.measurement_val_handle, hr.hrcp_val_handle, rfl⟩
  · rw [if_neg hs]
    exact discover_char_loop_frame chars hr

/-- The callback `discover_ccc_cb` writes the measurement configuration handle
and no other field, and issues no request. -/
theorem discover_ccc_cb_frame (lib : AttLib) (status : Nat) (pdu : List Nat) (len : Nat)
    (hr : heartrate) :
    ∃ h, discover_ccc_cb lib status pdu len hr
      = ({ hr with measurement_ccc_handle := h }, []) := by
  have hloop : ∀ list : List (List Nat), ∃ h, discover_ccc_loop lib hr list
      = { hr with measurement_ccc_handle := h } := by
    intro list
    induction list with
    | nil => exact ⟨hr.measurement_ccc_handle, rfl⟩
    | cons value rest ih =>
      rw [discover_ccc_loop]
      by_cases hu : lib.att_get_u16 (value.drop 2) = GATT_CLIENT_CHARAC_CFG_UUID
      · simp only [hu, if_true]
        exact ⟨_, rfl⟩
      · simp only [hu, if_false]
        exact ih
  unfold discover_ccc_cb
  by_cases hs : status ≠ 0
  · rw [if_pos hs]
    exact ⟨hr.measurement_ccc_handle, rfl⟩
  · rw [if_neg hs]
    cases lib.dec_find_info_resp pdu len with
    | none => exact ⟨hr.measurement_ccc_handle, rfl⟩
    | some r =>
      obtain ⟨format, list⟩ := r
      dsimp only
      by_cases hf : format ≠ ATT_FIND_INFO_RESP_FMT_16BIT
      · rw [if_pos hf]
        exact ⟨hr.measurement_ccc_handle, rfl⟩
      · rw [if_neg hf]
        obtain ⟨h, hh⟩ := hloop list
        exact ⟨h, by rw [hh]⟩

/-- The callback `read_sensor_location_cb` writes the location and its
presence flag and no other field, and issues no request. -/
theorem read_sensor_location_cb_frame (lib : AttLib) (status : Nat) (pdu : List Nat)
    (len : Nat) (hr : heartrate) :
    ∃ f v, read_sensor_location_cb lib status pdu len hr
      = ({ hr with has_location := f, location := v }, []) := by
  unfold read_sensor_location_cb
  by_cases hs : status ≠ 0
  · rw [if_pos hs]
    exact ⟨hr.has_location, hr.location, rfl⟩
  · rw [if_neg hs]
    dsimp only
    by_cases h1 : (lib.dec_read_resp pdu len 1).1 < 0
    · rw [if_pos h1]
      exact ⟨hr.has_location, hr.location, rfl⟩
    · rw [if_neg h1]
      by_cases h2 : (lib.dec_read_resp pdu len 1).1 ≠ 1
      · rw [if_pos h2]
        exact ⟨hr.has_location, hr.location, rfl⟩
      · rw [if_neg h2]
        exact ⟨true, (lib.dec_read_resp pdu len 1).2, rfl⟩

/-- C15, as stated, fails: on the scenario session after
`attio_disconnected_cb`, with no attach since, the completion
`discover_char_cb` with status 0 and the scenario list sets the measurement
handle to 11 and the control point handle to 19 and issues a descriptor scan
and a read, both with the unset transport; the completions `discover_ccc_cb`
and `read_sensor_location_cb` with status 0 change the session as well. -/
theorem C15_counterexample :
    (attio_disconnected_cb hr_10_20).1.attrib = none
      ∧ discover_char_cb scenario_chars 0 (attio_disconnected_cb hr_10_20).1
          = ({ hr_10_20 with attrib := none, measurement_val_handle := 11,
                             hrcp_val_handle := 19 },
             [Call.gatt_find_info none 12 14, Call.gatt_read_char none 16 0])
      ∧ discover_char_cb scenario_chars 0 (attio_disconnected_cb hr_10_20).1
          ≠ ((attio_disconnected_cb hr_10_20).1, [])
      ∧ discover_ccc_cb att_wire 0 [0x05, 0x01, 13, 0, 0x02, 0x29] 6
            (attio_disconnected_cb hr_10_20).1
          ≠ ((attio_disconnected_cb hr_10_20).1, [])
      ∧ read_sensor_location_cb att_wire 0 [0x0b, 3] 2 (attio_disconnected_cb hr_10_20).1
          ≠ ((attio_disconnected_cb hr_10_20).1, []) := by
  decide

/-- C15, amended: on a session on which `attio_disconnected_cb` has run and no
attach has followed, a late completion (`discover_char_cb`, `discover_ccc_cb`
or `read_sensor_location_cb`) delivered with a non-zero status leaves the
session unchanged and issues no request; delivered with any status and
payload it leaves the transport handle unset, and `discover_ccc_cb` and
`read_sensor_location_cb` issue no request. -/
theorem C15_late_completion (lib : AttLib) (hr : heartrate) (chars : List gatt_char)
    (status : Nat) (pdu : List Nat) (len : Nat) :
    (status ≠ 0 →
        discover_char_cb chars status (attio_disconnected_cb hr).1
            = ((attio_disconnected_cb hr).1, [])
          ∧ discover_ccc_cb lib status pdu len (attio_disconnected_cb hr).1
            = ((attio_disconnected_cb hr).1, [])
          ∧ read_sensor_location_cb lib status pdu len (attio_disconnected_cb hr).1
            = ((attio_disconnected_cb hr).1, []))
      ∧ ((discover_char_cb chars status (attio_disconnected_cb hr).1).1.attrib = none
          ∧ (discover_ccc_cb lib status pdu len (attio_disconnected_cb hr).1).1.attrib = none
          ∧ (read_sensor_location_cb lib status pdu len
              (attio_disconnected_cb hr).1).1.attrib = none)
      ∧ ((discover_ccc_cb lib status pdu len (attio_disconnected_cb hr).1).2 = []
          ∧ (read_sensor_location_cb lib status pdu len
              (attio_disconnected_cb hr).1).2 = []) := by
  refine ⟨fun hs => ⟨?_, ?_, ?_⟩, ⟨?_, ?_, ?_⟩, ⟨?_, ?_⟩⟩
  · simp only [discover_char_cb, hs, ne_eq, not_false_eq_true, if_true]
  · simp only [discover_ccc_cb, hs, ne_eq, not_false_eq_true, if_true]
  · simp only [read_sensor_location_cb, hs, ne_eq, not_false_eq_true, if_true]
  · obtain ⟨m, p, h⟩ := discover_char_cb_frame chars status (attio_disconnected_cb hr).1
    rw [h]; rfl
  · obtain ⟨c, h⟩ := discover_ccc_cb_frame lib status pdu len (attio_disconnected_cb hr).1
    rw [h]; rfl
  · obtain ⟨f, v, h⟩ :=
      read_sensor_location_cb_frame lib status pdu len (attio_disconnected_cb hr).1
    rw [h]; rfl
  · obtain ⟨c, h⟩ := discover_ccc_cb_frame lib status pdu len (attio_disconnected_cb hr).1
    rw [h]
  · obtain ⟨f, v, h⟩ :=
      read_sensor_location_cb_frame lib status pdu len (attio_disconnected_cb hr).1
    rw [h]

/-- Witness of C15: the scenario list arrives with status 1 after the detach;
nothing changes and nothing is issued. -/
theorem C15_late_completion_witness :
    discover_char_cb scenario_chars 1 (attio_disconnected_cb hr_10_20).1
        = ((attio_disconnected_cb hr_10_20).1, [])
      ∧ discover_ccc_cb att_wire 1 [0x05, 0x01, 13, 0, 0x02, 0x29] 6
          (attio_disconnected_cb hr_10_20).1
        = ((attio_disconnected_cb hr_10_20).1, [])
      ∧ read_sensor_location_cb att_wire 1 [0x05, 0x01, 13, 0, 0x02, 0x29] 6
          (attio_disconnected_cb hr_10_20).1
        = ((attio_disconnected_cb hr_10_20).1, []) :=
  (C15_late_completion att_wire hr_10_20 scenario_chars 1
    [0x05, 0x01, 13, 0, 0x02, 0x29] 6).1 (by decide)

/-- No event changes the service range of a session. -/
theorem apply_event_svc_range (lib : AttLib) (hr : heartrate) (ev : Event) :
    (apply_event lib hr ev).1.svc_range = hr.svc_range := by
  cases ev with
  | attio_connected attrib => rfl
  | attio_disconnected => rfl
  | discover_char chars status =>
    obtain ⟨m, p, h⟩ := discover_char_cb_frame chars status hr
    simp only [apply_event, h]
  | discover_ccc status pdu len =>
    obtain ⟨c, h⟩ := discover_ccc_cb_frame lib status pdu len hr
    simp only [apply_event, h]
  | read_sensor_location status pdu len =>
    obtain ⟨f, v, h⟩ := read_sensor_location_cb_frame lib status pdu len hr
    simp only [apply_event, h]

/-- No sequence of events changes the service range of a session. -/
theorem run_events_svc_range (lib : AttLib) (evs : List Event) :
    ∀ hr : heartrate, (run_events lib hr evs).svc_range = hr.svc_range := by
  induction evs with
  | nil => intro hr; rfl
  | cons ev rest ih =>
    intro hr
    rw [run_events, ih, apply_event_svc_range]

/-- C18: the service range of a session never changes once it is set.  Each
event (`attio_connected_cb`, `attio_disconnected_cb`, `discover_char_cb`,
`discover_ccc_cb`, `read_sensor_location_cb`, with any arguments) returns the
session with the service range it had, and so does every sequence of events;
the session that `heartrate_device_register` creates, found at the head of the
session list of the context of its adapter, holds the range of `prim`, and
still holds it after every sequence of events. -/
theorem C18_service_range_immutable (lib : AttLib) :
    (∀ (hr : heartrate) (ev : Event), (apply_event lib hr ev).1.svc_range = hr.svc_range)
      ∧ (∀ (hr : heartrate) (evs : List Event),
          (run_events lib hr evs).svc_range = hr.svc_range)
      ∧ (∀ (device_get_adapter : Nat → Nat) (adapters : List heartrate_adapter)
          (device : Nat) (prim : gatt_primary) (attioid : Nat),
          (∃ x ∈ adapters, x.adapter = device_get_adapter device) →
          ∃ ctx hr0 rest,
            find_heartrate_adapter
                (heartrate_device_register device_get_adapter adapters device prim
                  attioid).2.1 (device_get_adapter device) = some ctx
              ∧ ctx.devices = hr0 :: rest
              ∧ hr0.dev = device
              ∧ hr0.svc_range = prim.range
              ∧ ∀ evs : List Event, (run_events lib hr0 evs).svc_range = prim.range) := by
  refine ⟨apply_event_svc_range lib, fun hr evs => run_events_svc_range lib evs hr, ?_⟩
  intro dga adapters device prim attioid hctx
  obtain ⟨pre, ctx, post, hsplit, hpre, hc⟩ :=
    exists_first_context adapters (dga device) hctx
  have hfind := find_heartrate_adapter_split pre ctx post (dga device) hpre hc
  have hreg : (heartrate_device_register dga adapters device prim attioid).2.1
      = pre ++ { ctx with devices :=
          { dev := device, hradapter := dga device, attrib := none,
            attioid := attioid, svc_range := prim.range,
            measurement_val_handle := 0, measurement_ccc_handle := 0,
            hrcp_val_handle := 0, has_location := false, location := 0 }
            :: ctx.devices } :: post := by
    rw [hsplit]
    simp only [heartrate_device_register, hfind, g_slist_prepend,
      set_devices_split pre ctx post (dga device) _ hpre hc, hc]
  refine ⟨{ ctx with devices :=
          { dev := device, hradapter := dga device, attrib := none,
            attioid := attioid, svc_range := prim.range,
            measurement_val_handle := 0, measurement_ccc_handle := 0,
            hrcp_val_handle := 0, has_location := false, location := 0 }
            :: ctx.devices },
      { dev := device, hradapter := dga device, attrib := none,
        attioid := attioid, svc_range := prim.range,
        measurement_val_handle := 0, measurement_ccc_handle := 0,
        hrcp_val_handle := 0, has_location := false, location := 0 },
      ctx.devices, ?_, rfl, rfl, rfl, fun evs => ?_⟩
  · rw [hreg]
    exact find_heartrate_adapter_split pre _ post (dga device) hpre hc
  · rw [run_events_svc_range]

/-- Witness of C18: device 12 is registered with the range `[10, 20]`; its
session is attached, receives the scenario list, a descriptor response and a
location, and is detached; the range is still `[10, 20]`. -/
theorem C18_service_range_immutable_witness :
    ∃ ctx hr0 rest,
      find_heartrate_adapter
          (heartrate_device_register adapter_of registry_2_1 12 prim_10_20 5).2.1
          (adapter_of 12) = some ctx
        ∧ ctx.devices = hr0 :: rest
        ∧ hr0.dev = 12
        ∧ hr0.svc_range = prim_10_20.range
        ∧ (run_events att_wire hr0
            [Event.attio_connected (some 1), Event.discover_char scenario_chars 0,
             Event.discover_ccc 0 [0x05, 0x01, 13, 0, 0x02, 0x29] 6,
             Event.read_sensor_location 0 [0x0b, 3] 2,
             Event.attio_disconnected]).svc_range = prim_10_20.range :=
  match (C18_service_range_immutable att_wire).2.2 adapter_of registry_2_1 12 prim_10_20 5
    ⟨{ adapter := 1, devices := [{ hr_10_20 with dev := 11 }] }, by decide, by decide⟩ with
  | ⟨ctx, hr0, rest, h1, h2, h3, h4, h5⟩ => ⟨ctx, hr0, rest, h1, h2, h3, h4, h5 _⟩

/-! ## Theorems: the descriptor range on well-formed input -/

/-- C20: let the service end be a 16-bit handle, the value handle be at most
the service end, and the successor, if there is one, be declared after the
value handle and at most at the service end.  Then every range `[s, e]` that
`discover_measurement_ccc` requests has `s = value_handle + 1` (the `uint16_t`
sum does not wrap) and `value_handle < s ≤ e ≤ svc_range.end`; and no range is
requested exactly when no handle lies strictly between the value handle and
the declaration of the successor or, without successor, after the value handle
and up to the service end. -/
theorem C20_range_within_service (hr : heartrate) (c : gatt_char)
    (c_next : Option gatt_char)
    (h16 : hr.svc_range.end_ < U16)
    (hvh : c.value_handle ≤ hr.svc_range.end_)
    (hsucc : ∀ n, c_next = some n →
      c.value_handle < n.handle ∧ n.handle ≤ hr.svc_range.end_) :
    (∀ a s e, Call.gatt_find_info a s e ∈ (discover_measurement_ccc hr c c_next).2 →
        s = c.value_handle + 1 ∧ c.value_handle < s ∧ s ≤ e ∧ e ≤ hr.svc_range.end_)
      ∧ ((discover_measurement_ccc hr c c_next).2 = [] ↔
          ∀ h, c.value_handle < h →
            ¬ (match c_next with
                | some n => h < n.handle
                | none => h ≤ hr.svc_range.end_)) := by
  cases c_next with
  | none =>
    by_cases he : c.value_handle = hr.svc_range.end_
    · refine ⟨?_, ?_⟩
      · intro a s e hmem
        simp [discover_measurement_ccc, he] at hmem
      · simp only [discover_measurement_ccc, he, ne_eq, not_true_eq_false, if_false,
          true_iff]
        intro h hlt hle
        omega
    · have hs : (c.value_handle + 1) % U16 = c.value_handle + 1 :=
        Nat.mod_eq_of_lt (by omega)
      refine ⟨?_, ?_⟩
      · intro a s e hmem
        simp only [discover_measurement_ccc, ne_eq, he, not_false_eq_true, if_true, hs,
          List.mem_singleton, Call.gatt_find_info.injEq] at hmem
        obtain ⟨_, h1, h2⟩ := hmem
        omega
      · simp only [discover_measurement_ccc, ne_eq, he, not_false_eq_true, if_true,
          List.cons_ne_nil, false_iff, not_forall]
        exact ⟨c.value_handle + 1, by omega, by simp only [not_not]; omega⟩
  | some n =>
    obtain ⟨hlt, hle⟩ := hsucc n rfl
    have hs : (c.value_handle + 1) % U16 = c.value_handle + 1 :=
      Nat.mod_eq_of_lt (by omega)
    have hend : (n.handle + (U16 - 1)) % U16 = n.handle - 1 := by
      unfold U16 at *
      omega
    by_cases hadj : c.value_handle + 1 = n.handle
    · have hs2 : (c.value_handle + 1) % U16 = n.handle := hs.trans hadj
      refine ⟨?_, ?_⟩
      · intro a s e hmem
        simp only [discover_measurement_ccc, hs2, if_true, List.not_mem_nil] at hmem
      · simp only [discover_measurement_ccc, hs2, if_true, true_iff]
        intro h h1 h2
        omega
    · refine ⟨?_, ?_⟩
      · intro a s e hmem
        simp only [discover_measurement_ccc, hs, hadj, if_false, hend,
          List.mem_singleton, Call.gatt_find_info.injEq] at hmem
        obtain ⟨_, h1, h2⟩ := hmem
        omega
      · simp only [discover_measurement_ccc, hs, hadj, if_false,
          List.cons_ne_nil, false_iff, not_forall]
        exact ⟨c.value_handle + 1, by omega, by simp only [not_not]; omega⟩

/-- Witness of C20: in the service `[10, 20]`, value handle 11 and a successor
declared at 15: the range requested, `[12, 14]`, lies within the service. -/
theorem C20_range_within_service_witness :
    (∀ a s e, Call.gatt_find_info a s e ∈
        (discover_measurement_ccc hr_10_20
          { uuid := HEART_RATE_MEASUREMENT_UUID, handle := 10, properties := 16,
            value_handle := 11 }
          (some { uuid := BODY_SENSOR_LOCATION_UUID, handle := 15, properties := 2,
                  value_handle := 16 })).2 →
        s = 11 + 1 ∧ 11 < s ∧ s ≤ e ∧ e ≤ 20)
      ∧ ((discover_measurement_ccc hr_10_20
          { uuid := HEART_RATE_MEASUREMENT_UUID, handle := 10, properties := 16,
            value_handle := 11 }
          (some { uuid := BODY_SENSOR_LOCATION_UUID, handle := 15, properties := 2,
                  value_handle := 16 })).2 = [] ↔
          ∀ h, 11 < h → ¬ h < 15) :=
  C20_range_within_service hr_10_20
    { uuid := HEART_RATE_MEASUREMENT_UUID, handle := 10, properties := 16,
      value_handle := 11 }
    (some { uuid := BODY_SENSOR_LOCATION_UUID, handle := 15, properties := 2,
            value_handle := 16 })
    (by decide) (by decide)
    (fun n hn => by
      cases hn
      decide)

end Heartrate
